import Mathlib

/-!
Verification of the resilient outbound request layer of the telegram_bot
repository (`src/telegram_bot/services/api_service.py`), shallowly embedded
in Lean 4.

The embedding mirrors the source:

* `MAX_RETRIES`, `RETRY_DELAY`, `TIMEOUT` are the module-level constants.
* One HTTP attempt either completes with a status code and a body, or raises
  `asyncio.TimeoutError`, `aiohttp.ClientError`, or an unexpected exception;
  this is the `HttpEvent` type.  A run is driven by a `transport` function
  giving the event of each attempt index.
* `retryLoopAux` is the `for attempt in range(MAX_RETRIES)` loop of
  `_make_request_with_retry`, instrumented with a trace of the attempts made
  and the `asyncio.sleep` calls performed; `makeRequestWithRetry` runs it on
  `List.range MAX_RETRIES`.  The function returns `Option HttpResponse`
  exactly as the source returns `response` or `None`.
* JSON values and Python dict/list access (`.get(key, default)`, `[0]`,
  truthiness) are modelled by `Json`, `Json.pyGet`, `Json.index0`,
  `Json.truthy`; operations that raise in Python live in `Except`.
* `parseClaude`, `processResponse`, `sendToClaude` embed the body of
  `send_to_claude`; `logRequestToDb` embeds `_log_request_to_db` (whose
  `except` block swallows every database error).
* `contentTypeFor`, `buildTranscribeBody`, `transcribeTrace` embed the
  request construction of `transcribe_audio`: the `aiohttp.FormData` body is
  built once, before `_make_request_with_retry` is invoked.
-/

/-- `MAX_RETRIES = 3` from api_service.py. -/
def MAX_RETRIES : Nat := 3

/-- `RETRY_DELAY = 1.0` seconds from api_service.py (modelled in ℚ). -/
def RETRY_DELAY : ℚ := 1

/-- `TIMEOUT = 30.0` seconds from api_service.py (modelled in ℚ). -/
def TIMEOUT : ℚ := 30

/-- JSON values, as produced by `response.json()`.  Objects are association
lists, numbers are integers (the only numbers these claims touch). -/
inductive Json where
  | null
  | bool (b : Bool)
  | num (n : Int)
  | str (s : String)
  | arr (xs : List Json)
  | obj (fields : List (String × Json))

/-- What a single `session.request` attempt does: either the request
completes with an HTTP status and a body, or one of the three exception
classes of the source's `except` clauses is raised. -/
inductive HttpEvent where
  | response (status : Nat) (body : Json)
  | timeoutError
  | clientError
  | unexpectedError

/-- The value `_make_request_with_retry` hands back on success: the
`aiohttp.ClientResponse`, of which the claims use the status and the
JSON body. -/
structure HttpResponse where
  status : Nat
  body : Json

/-- Observable events of one `_make_request_with_retry` run: an HTTP attempt
at a given index, or an `await asyncio.sleep w`. -/
inductive Event where
  | attempted (i : Nat)
  | slept (w : ℚ)
deriving DecidableEq, Repr

/-- `wait_time = RETRY_DELAY * (2 ** attempt)` from the source. -/
def waitTime (attempt : Nat) : ℚ := RETRY_DELAY * 2 ^ attempt

/-- The body of the `for attempt in range(MAX_RETRIES)` loop of
`_make_request_with_retry`, run over the remaining attempt indices.
Returns the source's return value (`some response` or `none`) together with
the trace of attempts and sleeps.  Mirrors the source branch for branch:
status 200 returns the response; status 429 and status ≥ 500 sleep
`waitTime attempt` and continue while `attempt < MAX_RETRIES - 1`, else
return `none`; any other status returns `none` at once; `TimeoutError` and
`ClientError` behave like 429/5xx; any other exception returns `none`
at once.  Falling out of the loop returns `none`. -/
def retryLoopAux (transport : Nat → HttpEvent) : List Nat → Option HttpResponse × List Event
  | [] => (none, [])
  | attempt :: rest =>
    match transport attempt with
    | .response s body =>
      if s = 200 then
        (some ⟨s, body⟩, [.attempted attempt])
      else if s = 429 then
        if attempt < MAX_RETRIES - 1 then
          let r := retryLoopAux transport rest
          (r.1, .attempted attempt :: .slept (waitTime attempt) :: r.2)
        else (none, [.attempted attempt])
      else if 500 ≤ s then
        if attempt < MAX_RETRIES - 1 then
          let r := retryLoopAux transport rest
          (r.1, .attempted attempt :: .slept (waitTime attempt) :: r.2)
        else (none, [.attempted attempt])
      else (none, [.attempted attempt])
    | .timeoutError =>
      if attempt < MAX_RETRIES - 1 then
        let r := retryLoopAux transport rest
        (r.1, .attempted attempt :: .slept (waitTime attempt) :: r.2)
      else (none, [.attempted attempt])
    | .clientError =>
      if attempt < MAX_RETRIES - 1 then
        let r := retryLoopAux transport rest
        (r.1, .attempted attempt :: .slept (waitTime attempt) :: r.2)
      else (none, [.attempted attempt])
    | .unexpectedError => (none, [.attempted attempt])

/-- `_make_request_with_retry`: the loop over `range(MAX_RETRIES)`. -/
def makeRequestWithRetry (transport : Nat → HttpEvent) : Option HttpResponse × List Event :=
  retryLoopAux transport (List.range MAX_RETRIES)

/-- An attempt outcome the source treats as retryable: HTTP 429, HTTP 5xx,
`asyncio.TimeoutError`, or `aiohttp.ClientError`. -/
def retryableOutcome : HttpEvent → Prop
  | .response s _ => s = 429 ∨ 500 ≤ s
  | .timeoutError => True
  | .clientError => True
  | .unexpectedError => False

/-- An attempt outcome the source treats as fatal: a completed response
whose status is neither 200, nor 429, nor ≥ 500. -/
def fatalOutcome : HttpEvent → Prop
  | .response s _ => s ≠ 200 ∧ s ≠ 429 ∧ s < 500
  | _ => False

example : makeRequestWithRetry (fun _ => .response 200 .null)
    = (some ⟨200, .null⟩, [.attempted 0]) := by rfl

example : makeRequestWithRetry (fun _ => .response 429 .null)
    = (none, [.attempted 0, .slept 1, .attempted 1, .slept 2, .attempted 2]) := by
  have hr : List.range MAX_RETRIES = [0, 1, 2] := rfl
  simp [makeRequestWithRetry, hr, retryLoopAux, waitTime, RETRY_DELAY, MAX_RETRIES]

example : makeRequestWithRetry (fun _ => .response 404 .null)
    = (none, [.attempted 0]) := by rfl

example : makeRequestWithRetry (fun _ => .unexpectedError)
    = (none, [.attempted 0]) := by rfl

/-- Python truthiness (`if not x`) on JSON values: `None`, `False`, `0`,
`""`, `[]`, `{}` are falsy, everything else truthy. -/
def Json.truthy : Json → Bool
  | .null => false
  | .bool b => b
  | .num n => n != 0
  | .str s => !s.isEmpty
  | .arr xs => !xs.isEmpty
  | .obj fs => !fs.isEmpty

/-- First binding of a key in a JSON object's field list (Python dict
lookup; keys of a dict literal are unique, so first = only). -/
def lookupField (fields : List (String × Json)) (key : String) : Option Json :=
  (fields.find? fun p => p.1 == key).map Prod.snd

/-- Python `x.get(key, default)`: on a dict returns the binding or the
default; on anything else raises `AttributeError`. -/
def Json.pyGet : Json → String → Json → Except String Json
  | .obj fields, key, dflt => .ok ((lookupField fields key).getD dflt)
  | _, _, _ => .error "AttributeError"

/-- Python `x[0]`: head of a non-empty list, first character of a non-empty
string; raises otherwise. -/
def Json.index0 : Json → Except String Json
  | .arr (x :: _) => .ok x
  | .arr [] => .error "IndexError"
  | .str s => if s.isEmpty then .error "IndexError" else .ok (.str (s.take 1))
  | _ => .error "TypeError"

/-- Result of the parsing section of `send_to_claude`: either one of the two
early `return ""` paths (no `choices`, or falsy `content`), or the reply
`bot_response` together with `tokens_used = usage.get("total_tokens")`. -/
inductive SendResult where
  | empty
  | success (text : Json) (tokens : Json)

/-- The parsing section of `send_to_claude`, statement for statement:
`choices = result.get("choices", [])`; `if not choices: return ""`;
`message = choices[0].get("message", {})`;
`bot_response = message.get("content", "")`;
`if not bot_response: return ""`;
`usage = result.get("usage", {})`;
`tokens_used = usage.get("total_tokens")`.
Raised exceptions propagate as `Except.error` (caught further out). -/
def parseClaude (result : Json) : Except String SendResult :=
  match result.pyGet "choices" (Json.arr []) with
  | .error e => .error e
  | .ok choices =>
    if choices.truthy then
      match choices.index0 with
      | .error e => .error e
      | .ok c0 =>
        match c0.pyGet "message" (Json.obj []) with
        | .error e => .error e
        | .ok message =>
          match message.pyGet "content" (Json.str "") with
          | .error e => .error e
          | .ok bot =>
            if bot.truthy then
              match result.pyGet "usage" (Json.obj []) with
              | .error e => .error e
              | .ok usage =>
                match usage.pyGet "total_tokens" Json.null with
                | .error e => .error e
                | .ok tokens => .ok (.success bot tokens)
            else .ok .empty
    else .ok .empty

/-- The raw database work inside `_log_request_to_db`'s `try` block: the
session may raise (`dbRaises`). -/
def dbPersist (dbRaises : Bool) : Except String Unit :=
  if dbRaises then .error "db error" else .ok ()

/-- `_log_request_to_db`: wraps the database work in `try/except`; every
exception is caught and logged, never re-raised. -/
def logRequestToDb (dbRaises : Bool) : Except String Unit :=
  match dbPersist dbRaises with
  | .ok _ => .ok ()
  | .error _ => .ok ()

/-- Observable outcome of one `send_to_claude` call: the value returned to
the caller, whether `_log_request_to_db` was invoked, and with which
`(response_text, tokens_used)` arguments. -/
structure SendRun where
  returned : Json
  persistCalled : Bool
  persistArgs : Option (Json × Json)

/-- The tail of `send_to_claude` after `_make_request_with_retry` returns:
`if response is None: return ""`; parse; on success
`await _log_request_to_db(...)` then `return bot_response`; any exception
reaching the outer `except` yields `return ""`. -/
def processResponse (resp : Option HttpResponse) (dbRaises : Bool) : SendRun :=
  match resp with
  | none => ⟨.str "", false, none⟩
  | some r =>
    match parseClaude r.body with
    | .error _ => ⟨.str "", false, none⟩
    | .ok .empty => ⟨.str "", false, none⟩
    | .ok (.success text tokens) =>
      match logRequestToDb dbRaises with
      | .ok _ => ⟨text, true, some (text, tokens)⟩
      | .error _ => ⟨.str "", true, some (text, tokens)⟩

/-- `send_to_claude` as a function of the transport behaviour and of whether
the database session raises. -/
def sendToClaude (transport : Nat → HttpEvent) (dbRaises : Bool) : SendRun :=
  processResponse (makeRequestWithRetry transport).1 dbRaises

/-- Python `filename.endswith(suffix)` on character sequences. -/
def pyEndsWith (s suffix : String) : Bool :=
  suffix.data.isSuffixOf s.data

/-- The content-type chain of `transcribe_audio`: start from `audio/mpeg`,
override for `.ogg`/`.oga`, `.wav`, `.m4a`. -/
def contentTypeFor (filename : String) : String :=
  if pyEndsWith filename ".ogg" || pyEndsWith filename ".oga" then "audio/ogg"
  else if pyEndsWith filename ".wav" then "audio/wav"
  else if pyEndsWith filename ".m4a" then "audio/m4a"
  else "audio/mpeg"

example : contentTypeFor "voice.ogg" = "audio/ogg" := by rfl
example : contentTypeFor "clip.wav" = "audio/wav" := by rfl
example : contentTypeFor "track.mp3" = "audio/mpeg" := by rfl

/-- Two suffixes of the same list with equal lengths coincide. -/
theorem suffix_eq_of_length {l1 l2 l : List Char} (h1 : l1 <:+ l) (h2 : l2 <:+ l)
    (hl : l1.length = l2.length) : l1 = l2 := by
  rcases h1 with ⟨t1, rfl⟩
  rcases h2 with ⟨t2, he⟩
  have hlen := congrArg List.length he
  simp only [List.length_append] at hlen
  have ht : t2.length = t1.length := by omega
  exact (List.append_inj_right he ht).symm

/-- A retryable attempt with attempts remaining sleeps `waitTime attempt`
and continues with the rest of the loop. -/
theorem retry_step (t : Nat → HttpEvent) (attempt : Nat) (rest : List Nat)
    (h : retryableOutcome (t attempt)) (ha : attempt < MAX_RETRIES - 1) :
    retryLoopAux t (attempt :: rest)
      = ((retryLoopAux t rest).1,
         .attempted attempt :: .slept (waitTime attempt) :: (retryLoopAux t rest).2) := by
  cases hev : t attempt with
  | response s body =>
    rw [hev] at h
    simp only [retryableOutcome] at h
    rcases h with h | h
    · subst h
      simp [retryLoopAux, hev, ha]
    · have h200 : ¬ s = 200 := by omega
      have h429 : ¬ s = 429 := by omega
      simp [retryLoopAux, hev, h200, h429, h, ha]
  | timeoutError => simp [retryLoopAux, hev, ha]
  | clientError => simp [retryLoopAux, hev, ha]
  | unexpectedError => rw [hev] at h; simp [retryableOutcome] at h

/-- A retryable attempt with no attempts remaining returns `none` after
that single attempt, without sleeping. -/
theorem retry_last (t : Nat → HttpEvent) (attempt : Nat) (rest : List Nat)
    (h : retryableOutcome (t attempt)) (ha : ¬ attempt < MAX_RETRIES - 1) :
    retryLoopAux t (attempt :: rest) = (none, [.attempted attempt]) := by
  cases hev : t attempt with
  | response s body =>
    rw [hev] at h
    simp only [retryableOutcome] at h
    rcases h with h | h
    · subst h
      simp [retryLoopAux, hev, ha]
    · have h200 : ¬ s = 200 := by omega
      have h429 : ¬ s = 429 := by omega
      simp [retryLoopAux, hev, h200, h429, h, ha]
  | timeoutError => simp [retryLoopAux, hev, ha]
  | clientError => simp [retryLoopAux, hev, ha]
  | unexpectedError => rw [hev] at h; simp [retryableOutcome] at h

/-- A 200 attempt returns the response at once. -/
theorem success_step (t : Nat → HttpEvent) (attempt : Nat) (rest : List Nat) (body : Json)
    (h : t attempt = .response 200 body) :
    retryLoopAux t (attempt :: rest) = (some ⟨200, body⟩, [.attempted attempt]) := by
  simp [retryLoopAux, h]

/-- A fatal-status attempt (not 200, not 429, below 500) returns `none`
at once. -/
theorem fatal_step (t : Nat → HttpEvent) (attempt : Nat) (rest : List Nat) (s : Nat) (body : Json)
    (h : t attempt = .response s body) (h200 : s ≠ 200) (h429 : s ≠ 429) (h500 : s < 500) :
    retryLoopAux t (attempt :: rest) = (none, [.attempted attempt]) := by
  have h5 : ¬ 500 ≤ s := by omega
  simp [retryLoopAux, h, h200, h429, h5]

/-- An unexpected-exception attempt returns `none` at once. -/
theorem unexpected_step (t : Nat → HttpEvent) (attempt : Nat) (rest : List Nat)
    (h : t attempt = .unexpectedError) :
    retryLoopAux t (attempt :: rest) = (none, [.attempted attempt]) := by
  simp [retryLoopAux, h]

theorem range_MAX_RETRIES : List.range MAX_RETRIES = [0, 1, 2] := rfl

/-- A run whose every attempt is retryable: three attempts, two sleeps,
result `none`. -/
theorem all_retryable_run (t : Nat → HttpEvent)
    (h : ∀ i, i < MAX_RETRIES → retryableOutcome (t i)) :
    makeRequestWithRetry t
      = (none, [.attempted 0, .slept (waitTime 0), .attempted 1, .slept (waitTime 1),
                .attempted 2]) := by
  have h0 := retry_step t 0 [1, 2] (h 0 (by norm_num [MAX_RETRIES])) (by norm_num [MAX_RETRIES])
  have h1 := retry_step t 1 [2] (h 1 (by norm_num [MAX_RETRIES])) (by norm_num [MAX_RETRIES])
  have h2 := retry_last t 2 [] (h 2 (by norm_num [MAX_RETRIES])) (by norm_num [MAX_RETRIES])
  rw [makeRequestWithRetry, range_MAX_RETRIES, h0, h1, h2]

/-- A run whose first attempt has a fatal status returns `none` after that
single attempt. -/
theorem fatal_first_run (t : Nat → HttpEvent) (s : Nat) (body : Json)
    (h : t 0 = .response s body) (h200 : s ≠ 200) (h429 : s ≠ 429) (h500 : s < 500) :
    makeRequestWithRetry t = (none, [.attempted 0]) := by
  rw [makeRequestWithRetry, range_MAX_RETRIES]
  exact fatal_step t 0 [1, 2] s body h h200 h429 h500

/-- C1: a run in which every attempt yields a retryable failure performs
exactly `MAX_RETRIES = 3` attempts, sleeps `RETRY_DELAY * 2 ^ attempt`
seconds between consecutive attempts (1s after attempt 0, 2s after attempt
1, none after the last), and returns the failure value `none`. -/
theorem retry_exhaustion_three_attempts (t : Nat → HttpEvent)
    (h : ∀ i, i < MAX_RETRIES → retryableOutcome (t i)) :
    makeRequestWithRetry t
      = (none, [.attempted 0, .slept (waitTime 0), .attempted 1, .slept (waitTime 1),
                .attempted 2])
    ∧ waitTime 0 = 1 ∧ waitTime 1 = 2 ∧ MAX_RETRIES = 3 :=
  ⟨all_retryable_run t h, by norm_num [waitTime, RETRY_DELAY],
   by norm_num [waitTime, RETRY_DELAY], rfl⟩

/-- Witness for C1 at the transport that always returns HTTP 429. -/
theorem retry_exhaustion_three_attempts_witness :
    makeRequestWithRetry (fun _ => .response 429 .null)
      = (none, [.attempted 0, .slept (waitTime 0), .attempted 1, .slept (waitTime 1),
                .attempted 2]) :=
  (retry_exhaustion_three_attempts (fun _ => .response 429 .null)
    (fun _ _ => Or.inl rfl)).1

/-- C2: classification of a single attempt inside the loop: status 200
returns the response; a retryable outcome (429, ≥500, timeout, client
error) sleeps the backoff and continues while attempts remain; any other
status returns `none` immediately with no retry; the request timeout
constant is 30 seconds. -/
theorem attempt_outcome_classification (t : Nat → HttpEvent) (a : Nat) (rest : List Nat)
    (s : Nat) (body : Json) :
    (t a = .response 200 body →
       retryLoopAux t (a :: rest) = (some ⟨200, body⟩, [.attempted a]))
    ∧ (retryableOutcome (t a) → a < MAX_RETRIES - 1 →
       retryLoopAux t (a :: rest)
         = ((retryLoopAux t rest).1,
            .attempted a :: .slept (waitTime a) :: (retryLoopAux t rest).2))
    ∧ (t a = .response s body → s ≠ 200 → s ≠ 429 → s < 500 →
       retryLoopAux t (a :: rest) = (none, [.attempted a]))
    ∧ TIMEOUT = 30 := by
  refine ⟨fun h => success_step t a rest body h,
          fun h ha => retry_step t a rest h ha,
          fun h h200 h429 h500 => fatal_step t a rest s body h h200 h429 h500,
          rfl⟩

/-- Witness for C2 at a 200 response on attempt 0. -/
theorem attempt_outcome_classification_witness :
    retryLoopAux (fun _ => .response 200 .null) (0 :: [1, 2])
      = (some ⟨200, .null⟩, [.attempted 0]) :=
  (attempt_outcome_classification (fun _ => .response 200 .null) 0 [1, 2] 404 .null).1 rfl

/-- C3: when the first attempt yields 200 or a fatal (non-retryable)
status, the run returns after exactly one attempt, with no sleep. -/
theorem first_attempt_success_or_fatal_stops (t : Nat → HttpEvent) (s : Nat) (body : Json) :
    (t 0 = .response 200 body →
       makeRequestWithRetry t = (some ⟨200, body⟩, [.attempted 0]))
    ∧ (t 0 = .response s body → s ≠ 200 → s ≠ 429 → s < 500 →
       makeRequestWithRetry t = (none, [.attempted 0])) := by
  constructor
  · intro h
    rw [makeRequestWithRetry, range_MAX_RETRIES]
    exact success_step t 0 [1, 2] body h
  · intro h h200 h429 h500
    exact fatal_first_run t s body h h200 h429 h500

/-- Witness for C3 at a fatal 404 on the first attempt. -/
theorem first_attempt_success_or_fatal_stops_witness :
    makeRequestWithRetry (fun _ => .response 404 .null) = (none, [.attempted 0]) :=
  (first_attempt_success_or_fatal_stops (fun _ => .response 404 .null) 404 .null).2
    rfl (by norm_num) (by norm_num) (by norm_num)

/-- C10: an attempt that raises an exception which is neither a timeout nor
a client error returns `none` immediately — no sleep, no further attempts,
even when attempts remain (`rest` arbitrary). -/
theorem unexpected_exception_never_retried (t : Nat → HttpEvent) (a : Nat) (rest : List Nat) :
    (t a = .unexpectedError → retryLoopAux t (a :: rest) = (none, [.attempted a]))
    ∧ (t 0 = .unexpectedError → makeRequestWithRetry t = (none, [.attempted 0])) := by
  constructor
  · intro h
    exact unexpected_step t a rest h
  · intro h
    rw [makeRequestWithRetry, range_MAX_RETRIES]
    exact unexpected_step t 0 [1, 2] h

/-- Witness for C10 at an unexpected exception on attempt 0 with two
attempts remaining. -/
theorem unexpected_exception_never_retried_witness :
    retryLoopAux (fun _ => .unexpectedError) (0 :: [1, 2]) = (none, [.attempted 0]) :=
  (unexpected_exception_never_retried (fun _ => .unexpectedError) 0 [1, 2]).1 rfl

/-- C4 counterexample: with a transport that always returns HTTP 429 the
exhausted run returns `none` — exactly the value a fatal 404 run returns.
The returned value does not preserve the retryable classification and is
not distinguishable from a fatal failure. -/
theorem exhausted_retryable_equals_fatal_result :
    (makeRequestWithRetry (fun _ => .response 429 .null)).1 = none
    ∧ (makeRequestWithRetry (fun _ => .response 404 .null)).1 = none
    ∧ (makeRequestWithRetry (fun _ => .response 429 .null)).1
        = (makeRequestWithRetry (fun _ => .response 404 .null)).1 :=
  ⟨rfl, rfl, rfl⟩

/-- C4 amended: when every attempt yields a retryable failure and attempts
are exhausted, the value returned to the caller is `none` — the same value
returned for a fatal failure, so the retryable classification is not
preserved in the result. -/
theorem exhausted_retryable_collapses_to_none (t t2 : Nat → HttpEvent) (s : Nat) (body : Json)
    (h : ∀ i, i < MAX_RETRIES → retryableOutcome (t i))
    (h2 : t2 0 = .response s body) (h200 : s ≠ 200) (h429 : s ≠ 429) (h500 : s < 500) :
    (makeRequestWithRetry t).1 = none
    ∧ (makeRequestWithRetry t).1 = (makeRequestWithRetry t2).1 := by
  have hex := all_retryable_run t h
  have hfat := fatal_first_run t2 s body h2 h200 h429 h500
  rw [hex, hfat]
  exact ⟨rfl, rfl⟩

/-- Witness for the amended C4 at always-503 versus fatal-400 transports. -/
theorem exhausted_retryable_collapses_to_none_witness :
    (makeRequestWithRetry (fun _ => .response 503 .null)).1 = none
    ∧ (makeRequestWithRetry (fun _ => .response 503 .null)).1
        = (makeRequestWithRetry (fun _ => .response 400 .null)).1 :=
  exhausted_retryable_collapses_to_none (fun _ => .response 503 .null)
    (fun _ => .response 400 .null) 400 .null
    (fun _ _ => Or.inr (by norm_num)) rfl (by norm_num) (by norm_num) (by norm_num)

/-- The multipart body `transcribe_audio` assembles with `aiohttp.FormData`:
the `file` field's filename and content-type, and the `model` field. -/
structure FormBody where
  filename : String
  contentType : String
  model : String

/-- `data = FormData(); data.add_field("file", ..., filename=filename,
content_type=content_type); data.add_field("model", "whisper-1")`. -/
def buildTranscribeBody (filename : String) : FormBody :=
  ⟨filename, contentTypeFor filename, "whisper-1"⟩

/-- Events of one `transcribe_audio` request run: the body construction, or
an event of the retry loop. -/
inductive PipeEvent where
  | built (b : FormBody)
  | ran (e : Event)

def PipeEvent.isBuilt : PipeEvent → Bool
  | .built _ => true
  | _ => false

def PipeEvent.isAttempt : PipeEvent → Bool
  | .ran (.attempted _) => true
  | _ => false

/-- The request section of `transcribe_audio`: the `FormData` body is
constructed once, before `_make_request_with_retry` is invoked; the loop
then runs with that body fixed (it is part of `**kwargs`, bound once). -/
def transcribeTrace (transport : Nat → HttpEvent) (filename : String) : List PipeEvent :=
  let data := buildTranscribeBody filename
  PipeEvent.built data :: (makeRequestWithRetry transport).2.map PipeEvent.ran

/-- How many times the request body was built during the run. -/
def countBuilds (tr : List PipeEvent) : Nat := tr.countP PipeEvent.isBuilt

/-- How many HTTP attempts the run performed. -/
def countAttempts (tr : List PipeEvent) : Nat := tr.countP PipeEvent.isAttempt

/-- C5 counterexample: in an all-429 run of `transcribe_audio`'s request,
the body is built once while three attempts are made — the build step is
not invoked once per attempt, so the later attempts reuse the body built
before the first attempt. -/
theorem build_not_invoked_per_attempt :
    countBuilds (transcribeTrace (fun _ => .response 429 .null) "a.ogg") = 1
    ∧ countAttempts (transcribeTrace (fun _ => .response 429 .null) "a.ogg") = 3
    ∧ countBuilds (transcribeTrace (fun _ => .response 429 .null) "a.ogg")
        ≠ countAttempts (transcribeTrace (fun _ => .response 429 .null) "a.ogg") := by
  refine ⟨rfl, rfl, ?_⟩
  have h1 : countBuilds (transcribeTrace (fun _ => .response 429 .null) "a.ogg") = 1 := rfl
  have h2 : countAttempts (transcribeTrace (fun _ => .response 429 .null) "a.ogg") = 3 := rfl
  omega

/-- C5 amended: for every transport behaviour and filename, the request
body of `transcribe_audio` is built exactly once per run — before the retry
loop — and the same body value is shared by all attempts rather than being
rebuilt per attempt. -/
theorem body_built_once_per_run (transport : Nat → HttpEvent) (filename : String) :
    countBuilds (transcribeTrace transport filename) = 1
    ∧ ∀ b, PipeEvent.built b ∈ transcribeTrace transport filename
        → b = buildTranscribeBody filename := by
  constructor
  · have htr : transcribeTrace transport filename
        = PipeEvent.built (buildTranscribeBody filename)
          :: (makeRequestWithRetry transport).2.map PipeEvent.ran := rfl
    have hz : ∀ l : List Event,
        List.countP (PipeEvent.isBuilt ∘ PipeEvent.ran) l = 0 := by
      intro l
      induction l with
      | nil => rfl
      | cons x xs ih => rw [List.countP_cons, ih]; rfl
    rw [countBuilds, htr, List.countP_cons, List.countP_map, hz]
    rfl
  · intro b hb
    simp only [transcribeTrace, List.mem_cons, List.mem_map] at hb
    rcases hb with hb | ⟨e, _, he⟩
    · exact (PipeEvent.built.injEq _ _).mp hb.symm |>.symm
    · exact absurd he (by simp)

/-- The chat-completion body of C6:
`{"choices":[{"message":{"content":"hi"}}],"usage":{"total_tokens":12}}`. -/
def claudeBody : Json :=
  .obj [("choices", .arr [.obj [("message", .obj [("content", .str "hi")])]]),
        ("usage", .obj [("total_tokens", .num 12)])]

/-- C6: on a 200 response with the body of `claudeBody`, `send_to_claude`
extracts `choices[0].message.content` as the reply text and
`usage.total_tokens` as the token count: it returns `"hi"` and passes
`tokens_used = 12` on, whether or not the database step raises. -/
theorem send_to_claude_extracts_text_and_tokens (dbRaises : Bool) :
    sendToClaude (fun _ => .response 200 claudeBody) dbRaises
      = ⟨.str "hi", true, some (.str "hi", .num 12)⟩ := by
  cases dbRaises <;> rfl

theorem lookupField_nil (key : String) : lookupField [] key = none := rfl

theorem empty_str_isEmpty : "".isEmpty = true := rfl

/-- C7: on a 200 response whose body has an absent `choices`, an empty
`choices` array, an absent `message`, an absent `content`, or an empty
`content`, the parsing section of `send_to_claude` takes a soft-empty path
(`Except.ok SendResult.empty`, no exception), and `send_to_claude` returns
the empty string to the caller. -/
theorem empty_choices_or_content_returns_empty (fs c0fs mfs : List (String × Json))
    (restc : List Json) (body : Json) (dbRaises : Bool) :
    (lookupField fs "choices" = none → parseClaude (.obj fs) = .ok .empty)
    ∧ (lookupField fs "choices" = some (.arr []) → parseClaude (.obj fs) = .ok .empty)
    ∧ (lookupField fs "choices" = some (.arr (.obj c0fs :: restc)) →
       lookupField c0fs "message" = none → parseClaude (.obj fs) = .ok .empty)
    ∧ (lookupField fs "choices" = some (.arr (.obj c0fs :: restc)) →
       lookupField c0fs "message" = some (.obj mfs) →
       lookupField mfs "content" = none → parseClaude (.obj fs) = .ok .empty)
    ∧ (lookupField fs "choices" = some (.arr (.obj c0fs :: restc)) →
       lookupField c0fs "message" = some (.obj mfs) →
       lookupField mfs "content" = some (.str "") → parseClaude (.obj fs) = .ok .empty)
    ∧ (parseClaude body = .ok .empty →
       sendToClaude (fun _ => .response 200 body) dbRaises = ⟨.str "", false, none⟩) := by
  refine ⟨?_, ?_, ?_, ?_, ?_, ?_⟩
  · intro h
    simp [parseClaude, Json.pyGet, h, Json.truthy]
  · intro h
    simp [parseClaude, Json.pyGet, h, Json.truthy]
  · intro hc hm
    simp [parseClaude, Json.pyGet, hc, hm, Json.truthy, Json.index0, lookupField_nil,
      empty_str_isEmpty]
  · intro hc hm hct
    simp [parseClaude, Json.pyGet, hc, hm, hct, Json.truthy, Json.index0, lookupField_nil,
      empty_str_isEmpty]
  · intro hc hm hct
    simp [parseClaude, Json.pyGet, hc, hm, hct, Json.truthy, Json.index0, lookupField_nil,
      empty_str_isEmpty]
  · intro hp
    have hrun : (makeRequestWithRetry (fun _ => .response 200 body)).1 = some ⟨200, body⟩ := rfl
    simp [sendToClaude, hrun, processResponse, hp]

/-- Witness for C7: the body `{}` (no `choices` key) parses to the soft
empty result and the whole call returns `""` with no persistence. -/
theorem empty_choices_or_content_returns_empty_witness :
    parseClaude (.obj []) = .ok .empty
    ∧ sendToClaude (fun _ => .response 200 (.obj [])) true = ⟨.str "", false, none⟩ := by
  have h := empty_choices_or_content_returns_empty [] [] [] [] (.obj []) true
  have hp := h.1 rfl
  exact ⟨hp, h.2.2.2.2.2 hp⟩

/-- `_log_request_to_db` never lets an exception escape: its `except` block
catches and logs everything. -/
theorem logRequestToDb_ok (dbRaises : Bool) : logRequestToDb dbRaises = .ok () := by
  cases dbRaises <;> rfl

/-- `parseClaude` only produces a success when `bot_response` is truthy
(the `if not bot_response: return ""` guard). -/
theorem parseClaude_success_truthy (result text tokens : Json)
    (h : parseClaude result = .ok (.success text tokens)) : text.truthy = true := by
  unfold parseClaude at h
  repeat' split at h
  all_goals simp_all

/-- If the tail of `send_to_claude` invoked persistence, the HTTP run had
returned a response whose body parsed to a truthy reply, and that reply is
what the function returns. -/
theorem processResponse_persist (ro : Option HttpResponse) (db : Bool)
    (hp : (processResponse ro db).persistCalled = true) :
    ∃ r text tokens, ro = some r ∧ parseClaude r.body = .ok (.success text tokens)
      ∧ (processResponse ro db).returned = text := by
  cases ro with
  | none => simp [processResponse] at hp
  | some r =>
    cases hq : parseClaude r.body with
    | error e => simp [processResponse, hq] at hp
    | ok sr =>
      cases sr with
      | empty => simp [processResponse, hq] at hp
      | success text tokens =>
        refine ⟨r, text, tokens, rfl, hq, ?_⟩
        simp [processResponse, hq, logRequestToDb_ok db]

/-- The tail of `send_to_claude` does not depend on whether the database
session raises. -/
theorem processResponse_db_irrelevant (ro : Option HttpResponse) (a b : Bool) :
    processResponse ro a = processResponse ro b := by
  cases ro with
  | none => rfl
  | some r =>
    cases hq : parseClaude r.body with
    | error e => simp [processResponse, hq]
    | ok sr =>
      cases sr with
      | empty => simp [processResponse, hq]
      | success text tokens => simp [processResponse, hq, logRequestToDb_ok]

/-- C9: `_log_request_to_db` is invoked only after a successful non-empty
completion (the HTTP run returned a response whose body parsed to a truthy
reply), and the reply returned to the caller — and whether persistence is
invoked — is the same whether the database step raises or not. -/
theorem persist_only_after_success_and_harmless (t : Nat → HttpEvent) (dbRaises : Bool) :
    ((sendToClaude t dbRaises).persistCalled = true →
       ∃ r text tokens, (makeRequestWithRetry t).1 = some r
         ∧ parseClaude r.body = .ok (.success text tokens)
         ∧ text.truthy = true
         ∧ (sendToClaude t dbRaises).returned = text)
    ∧ (sendToClaude t true).returned = (sendToClaude t false).returned
    ∧ (sendToClaude t true).persistCalled = (sendToClaude t false).persistCalled := by
  refine ⟨?_, ?_, ?_⟩
  · intro hp
    obtain ⟨r, text, tokens, hro, hq, hret⟩ :=
      processResponse_persist ((makeRequestWithRetry t).1) dbRaises hp
    exact ⟨r, text, tokens, hro, hq, parseClaude_success_truthy r.body text tokens hq, hret⟩
  · exact congrArg SendRun.returned
      (processResponse_db_irrelevant ((makeRequestWithRetry t).1) true false)
  · exact congrArg SendRun.persistCalled
      (processResponse_db_irrelevant ((makeRequestWithRetry t).1) true false)

/-- Witness for C9 at a 200 response carrying `claudeBody` with a raising
database session: persistence was invoked, and only because the parse
succeeded with the truthy reply that is also what the caller gets. -/
theorem persist_only_after_success_and_harmless_witness :
    ∃ r text tokens,
      (makeRequestWithRetry (fun _ => .response 200 claudeBody)).1 = some r
      ∧ parseClaude r.body = .ok (.success text tokens)
      ∧ text.truthy = true
      ∧ (sendToClaude (fun _ => .response 200 claudeBody) true).returned = text :=
  (persist_only_after_success_and_harmless (fun _ => .response 200 claudeBody) true).1 rfl

/-- A string cannot end with two different suffixes of equal length. -/
theorem pyEndsWith_disjoint (s a b : String) (hlen : a.data.length = b.data.length)
    (hne : a.data ≠ b.data) (ha : pyEndsWith s a = true) : pyEndsWith s b = false := by
  by_contra hb
  rw [Bool.not_eq_false] at hb
  rw [pyEndsWith, List.isSuffixOf_iff_suffix] at ha hb
  exact hne (suffix_eq_of_length ha hb hlen)

/-- C8: the transcription request's content-type is determined by the
filename's extension alone: `.ogg`/`.oga` give `audio/ogg`, `.wav` gives
`audio/wav`, `.m4a` gives `audio/m4a`, and a name ending in none of these
gives `audio/mpeg`. -/
theorem content_type_by_extension (fn : String) :
    ((pyEndsWith fn ".ogg" = true ∨ pyEndsWith fn ".oga" = true) →
       contentTypeFor fn = "audio/ogg")
    ∧ (pyEndsWith fn ".wav" = true → contentTypeFor fn = "audio/wav")
    ∧ (pyEndsWith fn ".m4a" = true → contentTypeFor fn = "audio/m4a")
    ∧ (pyEndsWith fn ".ogg" = false → pyEndsWith fn ".oga" = false →
       pyEndsWith fn ".wav" = false → pyEndsWith fn ".m4a" = false →
       contentTypeFor fn = "audio/mpeg") := by
  refine ⟨?_, ?_, ?_, ?_⟩
  · intro h
    rcases h with h | h <;> simp [contentTypeFor, h]
  · intro h
    have hogg := pyEndsWith_disjoint fn ".wav" ".ogg" rfl (by decide) h
    have hoga := pyEndsWith_disjoint fn ".wav" ".oga" rfl (by decide) h
    simp [contentTypeFor, hogg, hoga, h]
  · intro h
    have hogg := pyEndsWith_disjoint fn ".m4a" ".ogg" rfl (by decide) h
    have hoga := pyEndsWith_disjoint fn ".m4a" ".oga" rfl (by decide) h
    have hwav := pyEndsWith_disjoint fn ".m4a" ".wav" rfl (by decide) h
    simp [contentTypeFor, hogg, hoga, hwav, h]
  · intro h1 h2 h3 h4
    simp [contentTypeFor, h1, h2, h3, h4]

/-- Witness for C8: `voice.ogg` gets `audio/ogg`. -/
theorem content_type_by_extension_witness : contentTypeFor "voice.ogg" = "audio/ogg" :=
  (content_type_by_extension "voice.ogg").1 (Or.inl rfl)
